import Mathlib

/-!
Verification of the GameBoy MCP server (src/gameboy/index.ts) against its
natural-language specification.

The development shallowly embeds the session/clock coordination layer of the
server: the name sanitizer and ROM installer (Title Registry), the save-state
store (Snapshot Store), the emulator state machine with its button/step/read
handlers (Session Controller), and the streaming tick (Stream Broadcaster).

Conventions used throughout:
- JavaScript strings are Lean `String`s; character classes ([a-zA-Z0-9]) use
  `Char.isAlphanum`, which agrees with the ASCII regex class.
- The filesystem is modelled as partial maps from paths (or ids) to file
  contents; `none` stands for an absent (or unreadable) file, so
  `fs.existsSync p` is `(fs p).isSome` and `fs.readFileSync` on `none`
  is the thrown ENOENT error.
- mtimes and timestamps are natural numbers.
- The opaque simulation core (the serverboy npm package, an external
  collaborator per the spec) is a type parameter `σ` together with a step
  function `step : σ → List Nat → σ` (doFrame under the currently pressed
  keys) and a renderer `render : σ → Frame` (getScreen + PNG encoding).
  Per the spec's collaborator contract, `saveState()` exports the full core
  state and `returnFromState` re-adopts it; JSON.stringify/JSON.parse
  round-trip the plain state array and are modelled as the identity, so the
  persisted blob has type `σ`.
-/

namespace GameBoyMCP

/-! ## Title Registry: name sanitization (sanitizeGameName, index.ts:60-64) -/

/-- One maximal run of non-alphanumeric characters becomes a single dash:
the embedding of `basename.replace(/[^a-zA-Z0-9]+/g, '-')`.  A non-alphanumeric
character emits a dash unless the rest of the run already did. -/
def dashRuns : List Char → List Char
  | [] => []
  | c :: cs =>
    if c.isAlphanum then c :: dashRuns cs
    else
      match dashRuns cs with
      | '-' :: r => '-' :: r
      | r => '-' :: r

/-- Embedding of `.replace(/^-|-$/g, '')`: the regex removes one leading dash
and one trailing dash (its two alternatives each match a single character,
anchored at the ends). -/
def trimEdgeDashes (l : List Char) : List Char :=
  let l1 := match l with
    | '-' :: r => r
    | r => r
  match l1.reverse with
  | '-' :: r => r.reverse
  | _ => l1

/-- POSIX basename: the part of the path after the last slash
(Node path.basename for paths without a trailing slash). -/
def jsBasename (p : String) : String :=
  String.mk ((p.toList.reverse.takeWhile (fun c => c ≠ '/')).reverse)

/-- Node path.extname of a basename: the suffix starting at the last dot,
empty when there is no dot or the only dot is the leading character. -/
def jsExtname (b : List Char) : List Char :=
  let r := b.reverse
  let pre := r.takeWhile (fun c => c ≠ '.')
  if pre.length = r.length then []
  else if pre.length + 1 = r.length then []
  else '.' :: pre.reverse

/-- Basename with its extension stripped:
`path.basename(romPath, path.extname(romPath))`. -/
def jsBasenameNoExt (p : String) : List Char :=
  let b := (jsBasename p).toList
  let ext := jsExtname b
  if ext.isEmpty then b else b.take (b.length - ext.length)

/-- Embedding of sanitizeGameName (index.ts:60-64): strip the extension,
collapse non-alphanumeric runs to single dashes, lower-case, trim one
leading/trailing dash. -/
def sanitizeGameName (romPath : String) : String :=
  String.mk (trimEdgeDashes ((dashRuns (jsBasenameNoExt romPath)).map Char.toLower))

/-- A string is a sanitized id in the spec's sense when collapsing
non-alphanumeric runs and lower-casing leaves it unchanged. -/
def isSanitizedId (id : String) : Prop :=
  id = String.mk ((dashRuns id.toList).map Char.toLower)

instance (id : String) : Decidable (isSanitizedId id) := by
  unfold isSanitizedId; infer_instance

/-! ## Title Registry: installRom (index.ts:104-139) -/

/-- The game id computed by installRom (index.ts:109):
`customName || sanitizeGameName(sourcePath)` — note the JavaScript falsy
check, so an empty custom name falls back to the sanitized source name. -/
def installedName (sourcePath : String) (customName : Option String) : String :=
  match customName with
  | some n => if n = "" then sanitizeGameName sourcePath else n
  | none => sanitizeGameName sourcePath

/-- The metadata record written to game.json (index.ts:126-131). -/
structure GameMeta where
  name : String
  originalPath : String
  installedAt : Nat
deriving DecidableEq

/-- The slice of the filesystem installRom touches: the source file (its
mtime, when it exists), the destination rom file (its mtime, when it
exists) and the game.json metadata record. -/
structure InstallFs where
  srcMtime : Option Nat
  destRom : Option Nat
  gameMeta : Option GameMeta
deriving DecidableEq

/-- The copy guard (index.ts:119-120): copy when no destination file exists
or the source is strictly newer than the destination. -/
def shouldCopy (srcM : Nat) (dest : Option Nat) : Bool :=
  match dest with
  | none => true
  | some t => decide (t < srcM)

/-- Errors surfaced by the emulator layer.  notReady is the thrown
Error('No ROM loaded'); notFound carries the message of a missing-file
failure (the explicit not-found throws, or ENOENT from a read). -/
inductive SErr where
  | notReady : SErr
  | notFound : String → SErr
deriving DecidableEq

/-- Embedding of installRom (index.ts:104-139) on the InstallFs slice.
`now` is the current clock (the mtime given to the copied file — copyFileSync
stamps the destination with the time of the copy — and the installedAt
timestamp).  Returns the updated filesystem, the game id, and whether the
file copy was performed. -/
def installRom (sourcePath : String) (customName : Option String) (now : Nat)
    (fs : InstallFs) : Except SErr (InstallFs × String × Bool) :=
  match fs.srcMtime with
  | none => .error (.notFound ("ROM file not found: " ++ sourcePath))
  | some m =>
    let gameName := installedName sourcePath customName
    let copy := shouldCopy m fs.destRom
    let fs1 := if copy then { fs with destRom := some now } else fs
    let fs2 := { fs1 with gameMeta := some ⟨gameName, sourcePath, now⟩ }
    .ok (fs2, gameName, copy)

/-! ## Session Controller: the emulator state machine (index.ts:89-331) -/

/-- A rendered frame (the PNG bytes produced by getScreenAsBuffer). -/
abbrev Frame := List Nat

/-- A stream subscriber (an entry of the streamClients set): an identity and
whether its callback raises when invoked. -/
structure Sub where
  sid : Nat
  fails : Bool
deriving DecidableEq

/-- The GameBoy buttons (index.ts:77-86). -/
inductive GBButton where
  | up | down | left | right | a | b | start | select
deriving DecidableEq

/-- The serverboy keypad index for each button (Gameboy.KEYMAP,
index.ts:282-291). -/
def keymap : GBButton → Nat
  | .right => 0
  | .left => 1
  | .up => 2
  | .down => 3
  | .a => 4
  | .b => 5
  | .select => 6
  | .start => 7

/-- The mutable state of GameBoyEmulator (index.ts:89-101) over an opaque
core state `σ`.  `pressed` is the key set queued by pressKeys for the next
doFrame (serverboy applies it for one frame and then clears it).  `ticks`
counts doFrame calls (the simulation clock) and `trace` records the key mask
each executed tick saw — both are observation fields of the embedding, not
mutable program state. -/
structure Emu (σ : Type) where
  core : σ
  pressed : List Nat
  romLoaded : Bool
  gameName : Option String
  streamActive : Bool
  streamClients : List Sub
  ticks : Nat
  trace : List (List Nat)
deriving DecidableEq

/-- JavaScript truthiness of the `gameName` field: undefined and the empty
string are both falsy. -/
def truthyName (o : Option String) : Option String :=
  match o with
  | some s => if s = "" then none else some s
  | none => none

/-- One `gameboy.doFrame()`: step the core under the queued keys, clear the
queue, count the tick, record the mask. -/
def emuDoFrame (step : σ → List Nat → σ) (s : Emu σ) : Emu σ :=
  { s with
    core := step s.core s.pressed
    pressed := []
    ticks := s.ticks + 1
    trace := s.trace ++ [s.pressed] }

/-- `n` consecutive doFrame calls. -/
def advanceN (step : σ → List Nat → σ) : Nat → Emu σ → Emu σ
  | 0, s => s
  | n + 1, s => advanceN step n (emuDoFrame step s)

/-- The press loop of pressButton (index.ts:293-296): each iteration queues
the button's key and runs one frame. -/
def pressLoop (step : σ → List Nat → σ) (key : Nat) : Nat → Emu σ → Emu σ
  | 0, s => s
  | d + 1, s => pressLoop step key d (emuDoFrame step { s with pressed := [key] })

/-- Embedding of GameBoyEmulator.pressButton (index.ts:279-299): fails when
no ROM is loaded; otherwise holds the button for `d` frames and then runs one
release frame with no key queued. -/
def pressButton (step : σ → List Nat → σ) (btn : GBButton) (d : Nat) (s : Emu σ) :
    Except SErr (Emu σ) :=
  if s.romLoaded then .ok (emuDoFrame step (pressLoop step (keymap btn) d s))
  else .error .notReady

/-- The press_* tool path (index.ts:478-482, 708-725): pressButton followed
by getScreen(), a pure read of the resulting frame. -/
def pressButtonHandler (step : σ → List Nat → σ) (render : σ → Frame)
    (btn : GBButton) (d : Nat) (s : Emu σ) : Except SErr (Emu σ × Frame) :=
  match pressButton step btn d s with
  | .error e => .error e
  | .ok s1 => .ok (s1, render s1.core)

/-- Embedding of GameBoyEmulator.getScreenAsBuffer (index.ts:306-319): fails
when no ROM is loaded, otherwise renders the current framebuffer without
touching the emulator state. -/
def getScreenAsBuffer (render : σ → Frame) (s : Emu σ) :
    Except SErr (Emu σ × Frame) :=
  if s.romLoaded then .ok (s, render s.core) else .error .notReady

/-- The get_screen tool handler (index.ts:788-798): rejects when no ROM is
loaded, otherwise runs `emulator.doFrame()` once and then reads the screen. -/
def getScreenHandler (step : σ → List Nat → σ) (render : σ → Frame)
    (s : Emu σ) : Except SErr (Emu σ × Frame) :=
  if s.romLoaded then
    let s1 := emuDoFrame step s
    .ok (s1, render s1.core)
  else .error .notReady

/-! ## Stream Broadcaster: one tick of runStreamLoop (index.ts:354-384) -/

/-- The broadcast loop body (index.ts:371-377): invoke each client with the
one rendered frame; a client whose callback raises is deleted from the set
and the iteration continues with the rest.  Returns the surviving client set
and the deliveries made. -/
def broadcast (frame : Frame) : List Sub → List Sub × List (Nat × Frame)
  | [] => ([], [])
  | c :: cs =>
    let rest := broadcast frame cs
    if c.fails then (rest.1, rest.2)
    else (c :: rest.1, (c.sid, frame) :: rest.2)

/-- One firing of the stream tick (index.ts:359-381): a no-op when the
stream is inactive or no ROM is loaded; otherwise advances the core by
ceil(60 / fps) frames unconditionally, and only then, when the client set is
non-empty, renders one frame and broadcasts it.  Returns the new emulator
state and the list of (subscriber, frame) deliveries. -/
def streamTick (step : σ → List Nat → σ) (render : σ → Frame) (fps : Nat)
    (s : Emu σ) : Emu σ × List (Nat × Frame) :=
  if s.streamActive && s.romLoaded then
    let framesToAdvance := (60 + fps - 1) / fps
    let s1 := advanceN step framesToAdvance s
    if 0 < s1.streamClients.length then
      let frame := render s1.core
      let r := broadcast frame s1.streamClients
      ({ s1 with streamClients := r.1 }, r.2)
    else (s1, [])
  else (s, [])

/-! ## Snapshot Store: saveState / loadState (index.ts:178-235) -/

/-- The metadata record of a save state (index.ts:34-40), with the
screenshot held as frame bytes. -/
structure SaveStateMetadata (σ : Type) where
  id : String
  name : String
  gameName : String
  timestamp : Nat
  screenshot : Frame
deriving DecidableEq

/-- The saves directory of the current game, as a pair of partial maps from
snapshot ids to the decoded contents of the two artifacts
(id.state.json and id.meta.json). -/
structure SaveFiles (σ : Type) where
  state : String → Option σ
  meta : String → Option (SaveStateMetadata σ)

/-- Write both artifacts of one snapshot. -/
def SaveFiles.put (files : SaveFiles σ) (sid : String) (blob : σ)
    (m : SaveStateMetadata σ) : SaveFiles σ :=
  { state := fun q => if q = sid then some blob else files.state q
    meta := fun q => if q = sid then some m else files.meta q }

/-- Embedding of GameBoyEmulator.saveState (index.ts:178-212): requires a
loaded ROM with a truthy game name; exports the full core state as the blob,
captures the current screen as the thumbnail (no frame advance between the
two), writes both artifacts under a fresh id, and returns the metadata.  The
emulator state itself is not mutated. -/
def saveState (render : σ → Frame) (fid : String) (now : Nat)
    (nm : Option String) (s : Emu σ) (files : SaveFiles σ) :
    Except SErr (Emu σ × SaveFiles σ × SaveStateMetadata σ) :=
  match truthyName s.gameName, s.romLoaded with
  | some g, true =>
    let stateName := match nm with
      | some x => if x = "" then "save-" ++ fid else x
      | none => "save-" ++ fid
    let blob := s.core
    let shot := render s.core
    let m : SaveStateMetadata σ := ⟨fid, stateName, g, now, shot⟩
    .ok (s, files.put fid blob m, m)
  | _, _ => .error .notReady

/-- Embedding of GameBoyEmulator.loadState (index.ts:215-235): requires a
loaded ROM with a truthy game name; fails with the explicit not-found error
when the state blob file is absent, with ENOENT when the metadata file is
absent or unreadable; otherwise restores the blob into the core
(returnFromState) and returns the metadata. -/
def loadState (stateId : String) (s : Emu σ) (files : SaveFiles σ) :
    Except SErr (Emu σ × SaveStateMetadata σ) :=
  match truthyName s.gameName, s.romLoaded with
  | some _, true =>
    match files.state stateId with
    | none => .error (.notFound ("Save state not found: " ++ stateId))
    | some blob =>
      match files.meta stateId with
      | none => .error (.notFound ("ENOENT: " ++ stateId ++ ".meta.json"))
      | some m => .ok ({ s with core := blob }, m)
  | _, _ => .error .notReady

/-! ## Snapshot Store: deleteState (index.ts:257-277) over string paths -/

/-- A flat filesystem: paths to contents. -/
def Fs : Type := String → Option String

/-- unlinkSync. -/
def Fs.remove (fs : Fs) (p : String) : Fs :=
  fun q => if q = p then none else fs q

/-- The managed games directory (GAMES_DIR, index.ts:30-31), with
os.homedir() rendered as a tilde. -/
def gamesDir : String := "~/.gameboy-mcp/games"

/-- getSavesDir (index.ts:66-72). -/
def savesDirPath (g : String) : String := gamesDir ++ "/" ++ g ++ "/saves"

/-- The state-blob artifact path (index.ts:264). -/
def stateFilePath (g sid : String) : String :=
  savesDirPath g ++ "/" ++ sid ++ ".state.json"

/-- The metadata artifact path (index.ts:265). -/
def metaFilePath (g sid : String) : String :=
  savesDirPath g ++ "/" ++ sid ++ ".meta.json"

/-- The target-game choice `gameName || this.gameName` with JavaScript
falsiness of the empty string. -/
def jsOrName (primary fallback : Option String) : Option String :=
  match primary with
  | some s => if s = "" then fallback else some s
  | none => fallback

/-- Embedding of GameBoyEmulator.deleteState (index.ts:257-277): resolve the
target game (explicit argument or the loaded game, else return false);
unlink each of the two artifacts that exists; report whether anything was
removed. -/
def deleteState (current : Option String) (sid : String)
    (gameName : Option String) (fs : Fs) : Bool × Fs :=
  match jsOrName gameName current with
  | none => (false, fs)
  | some g =>
    let sf := stateFilePath g sid
    let mf := metaFilePath g sid
    let r1 : Bool × Fs := if (fs sf).isSome then (true, fs.remove sf) else (false, fs)
    let r2 : Bool × Fs := if (r1.2 mf).isSome then (true, (r1.2).remove mf) else (false, r1.2)
    (r1.1 || r2.1, r2.2)

/-! ## Snapshot Store: listStates (index.ts:238-254) -/

/-- The filesystem view listStates needs: the directory listing of a saves
directory (`none` when the directory does not exist) and the parsed metadata
content of each listed file. -/
structure SavesFs where
  dirEntries : String → Option (List String)
  parsedMeta : String → String → SaveStateMetadata Unit

/-- Insertion step of the timestamp sort. -/
def insertByTs (m : SaveStateMetadata Unit) :
    List (SaveStateMetadata Unit) → List (SaveStateMetadata Unit)
  | [] => [m]
  | x :: xs => if m.timestamp ≥ x.timestamp then m :: x :: xs else x :: insertByTs m xs

/-- The `.sort((a, b) => b.timestamp - a.timestamp)` of listStates:
order by timestamp descending. -/
def sortByTsDesc : List (SaveStateMetadata Unit) → List (SaveStateMetadata Unit)
  | [] => []
  | x :: xs => insertByTs x (sortByTsDesc xs)

/-- Embedding of GameBoyEmulator.listStates (index.ts:238-254): resolve the
target game (argument or loaded game — empty list when neither), return the
empty list when the saves directory does not exist, otherwise parse every
.meta.json entry and sort by timestamp descending. -/
def listStates (current gameName : Option String) (fs : SavesFs) :
    List (SaveStateMetadata Unit) :=
  match jsOrName gameName current with
  | none => []
  | some g =>
    let sd := savesDirPath g
    match fs.dirEntries sd with
    | none => []
    | some entries =>
      sortByTsDesc (((entries.filter (fun f => f.endsWith ".meta.json"))).map
        (fs.parsedMeta sd))

/-! ## Concrete instances used by the closed counterexamples and witnesses -/

/-- A small concrete simulation core for instantiating the opaque `σ`:
the state is a number, a frame step mixes in the pressed keys. -/
def stepW : Nat → List Nat → Nat := fun c ks => 2 * c + ks.sum + 1

/-- A concrete renderer for the witness core. -/
def renderW : Nat → Frame := fun c => [c, c + 1]

/-- A loaded, non-streaming emulator state. -/
def eL : Emu Nat := ⟨5, [], true, some "g", false, [], 0, []⟩

/-- An unloaded emulator state. -/
def eU : Emu Nat := ⟨5, [], false, none, false, [], 0, []⟩

/-- A loaded, streaming emulator state with no subscribers. -/
def eS : Emu Nat := ⟨0, [], true, some "g", true, [], 7, []⟩

/-- A loaded, streaming emulator state with three subscribers, the middle
one with a raising callback. -/
def eS2 : Emu Nat := ⟨0, [], true, some "g", true,
  [⟨1, false⟩, ⟨2, true⟩, ⟨3, false⟩], 7, []⟩

/-- A concrete snapshot metadata record. -/
def metaW : SaveStateMetadata Nat := ⟨"abc", "checkpoint", "g", 3, [5, 6]⟩

/-- A saves directory holding exactly the snapshot "abc". -/
def filesW : SaveFiles Nat :=
  ⟨fun q => if q = "abc" then some 5 else none,
   fun q => if q = "abc" then some metaW else none⟩

/-- An empty saves directory. -/
def emptyFilesW : SaveFiles Nat := ⟨fun _ => none, fun _ => none⟩

/-- An install filesystem where the source file exists (mtime 5) and
nothing is installed yet. -/
def installFsW : InstallFs := ⟨some 5, none, none⟩

/-- A flat filesystem holding both artifacts of snapshot "abc" of game "g". -/
def fsW : Fs := fun q =>
  if q = stateFilePath "g" "abc" then some "blob"
  else if q = metaFilePath "g" "abc" then some "meta" else none

/-- A saves filesystem with no saves directory at all. -/
def savesFsW : SavesFs := ⟨fun _ => none, fun _ _ => ⟨"x", "y", "g", 0, []⟩⟩

/-! ## Helper lemmas -/

/-- The two snapshot artifact paths of one id never coincide (their lengths
differ by one). -/
theorem statePath_ne_metaPath (g sid : String) :
    stateFilePath g sid ≠ metaFilePath g sid := by
  intro h
  have hlen := congrArg String.length h
  simp [stateFilePath, metaFilePath, String.length_append] at hlen
  exact absurd hlen (by decide)

/-- dashRuns only inserts dashes: the alphanumeric characters are untouched
and keep their order. -/
theorem dashRuns_filter (l : List Char) :
    (dashRuns l).filter (fun c => c.isAlphanum) = l.filter (fun c => c.isAlphanum) := by
  induction l with
  | nil => rfl
  | cons c cs ih =>
    by_cases hc : c.isAlphanum
    · simp [dashRuns, hc, ih]
    · have key : List.filter (fun c => c.isAlphanum) (dashRuns (c :: cs)) =
          List.filter (fun c => c.isAlphanum) (dashRuns cs) := by
        simp only [dashRuns, if_neg hc]
        split
        · next r heq => rw [heq]
        · next heq => simp [List.filter_cons]
      rw [key, ih]
      simp [List.filter_cons, hc]

/-- dashRuns never produces two adjacent dashes: each maximal run of
non-alphanumeric characters collapses to a single separator. -/
theorem dashRuns_no_double_dash (l : List Char) :
    List.Chain' (fun a b => ¬(a = '-' ∧ b = '-')) (dashRuns l) := by
  induction l with
  | nil => exact List.chain'_nil
  | cons c cs ih =>
    by_cases hc : c.isAlphanum
    · have hcd : c ≠ '-' := by
        intro h; rw [h] at hc; exact absurd hc (by decide)
      simp only [dashRuns, if_pos hc]
      rcases hds : dashRuns cs with _ | ⟨a, r⟩
      · simp
      · rw [hds] at ih
        exact List.chain'_cons.mpr ⟨fun hab => hcd hab.1, ih⟩
    · simp only [dashRuns, if_neg hc]
      split
      · next r heq => rw [← heq]; exact ih
      · next r heq =>
        rcases hds : dashRuns cs with _ | ⟨a, r2⟩
        · simp [hds]
        · have ha : a ≠ '-' := by
            intro h; subst h; exact heq r2 hds
          rw [hds] at ih
          exact List.chain'_cons.mpr ⟨fun hab => ha hab.2, ih⟩

/-- Field accounting for the press loop: starting with no queued keys, `d`
iterations run exactly `d` ticks, each under precisely the held key, and
leave the queue empty. -/
theorem pressLoop_fields (step : σ → List Nat → σ) (key : Nat) :
    ∀ (d : Nat) (s : Emu σ), s.pressed = [] →
      (pressLoop step key d s).pressed = [] ∧
      (pressLoop step key d s).ticks = s.ticks + d ∧
      (pressLoop step key d s).trace = s.trace ++ List.replicate d [key] ∧
      (pressLoop step key d s).romLoaded = s.romLoaded := by
  intro d
  induction d with
  | zero => intro s hp; simp [pressLoop, hp]
  | succ n ih =>
    intro s hp
    have h := ih (emuDoFrame step { s with pressed := [key] }) rfl
    simp [pressLoop, emuDoFrame] at h ⊢
    refine ⟨h.1, ?_, ?_, h.2.2.2⟩
    · omega
    · rw [h.2.2.1]
      simp [List.replicate_succ, List.append_assoc]

/-- Field accounting for `n` frame advances: the clock moves by exactly `n`
and the subscriber set, loaded flag and streaming flag are untouched. -/
theorem advanceN_fields (step : σ → List Nat → σ) :
    ∀ (n : Nat) (s : Emu σ),
      (advanceN step n s).ticks = s.ticks + n ∧
      (advanceN step n s).streamClients = s.streamClients ∧
      (advanceN step n s).romLoaded = s.romLoaded ∧
      (advanceN step n s).streamActive = s.streamActive := by
  intro n
  induction n with
  | zero => intro s; simp [advanceN]
  | succ k ih =>
    intro s
    have h := ih (emuDoFrame step s)
    simp [advanceN, emuDoFrame] at h ⊢
    exact ⟨by omega, h.2.1, h.2.2⟩

/-- The broadcast loop keeps exactly the subscribers whose callbacks do not
raise and delivers the one frame to each of them. -/
theorem broadcast_spec (frame : Frame) (l : List Sub) :
    broadcast frame l =
      (l.filter (fun c => !c.fails),
       (l.filter (fun c => !c.fails)).map (fun c => (c.sid, frame))) := by
  induction l with
  | nil => rfl
  | cons c cs ih =>
    by_cases hf : c.fails
    · simp [broadcast, hf, ih]
    · simp [broadcast, hf, ih]

/-- Evaluation of the stream tick while the stream is active and a ROM is
loaded: the core is advanced first, broadcasting happens only on a
non-empty subscriber set. -/
theorem streamTick_eq_of_active (step : σ → List Nat → σ) (render : σ → Frame)
    (fps : Nat) (s : Emu σ) (hsa : s.streamActive = true) (hsl : s.romLoaded = true) :
    streamTick step render fps s =
      if 0 < (advanceN step ((60 + fps - 1) / fps) s).streamClients.length then
        ({ advanceN step ((60 + fps - 1) / fps) s with
            streamClients :=
              (broadcast (render (advanceN step ((60 + fps - 1) / fps) s).core)
                (advanceN step ((60 + fps - 1) / fps) s).streamClients).1 },
          (broadcast (render (advanceN step ((60 + fps - 1) / fps) s).core)
            (advanceN step ((60 + fps - 1) / fps) s).streamClients).2)
      else (advanceN step ((60 + fps - 1) / fps) s, []) := by
  unfold streamTick
  rw [if_pos (show (s.streamActive && s.romLoaded) = true by rw [hsa, hsl]; rfl)]

/-- Evaluation of installRom when the source file exists. -/
theorem installRom_eq (sourcePath : String) (customName : Option String)
    (now : Nat) (fs : InstallFs) (m : Nat) (hsrc : fs.srcMtime = some m) :
    installRom sourcePath customName now fs =
      .ok ({ srcMtime := fs.srcMtime,
             destRom := if shouldCopy m fs.destRom then some now else fs.destRom,
             gameMeta := some ⟨installedName sourcePath customName, sourcePath, now⟩ },
           installedName sourcePath customName, shouldCopy m fs.destRom) := by
  unfold installRom
  rw [hsrc]
  by_cases hc : shouldCopy m fs.destRom <;> simp [hc, hsrc]

/-- After an install whose clock is at or past the source mtime, the copy
guard can never fire again for an unchanged source. -/
theorem shouldCopy_after_install (m now1 : Nat) (d : Option Nat)
    (hclock : m ≤ now1) :
    shouldCopy m (if shouldCopy m d then some now1 else d) = false := by
  by_cases hc : shouldCopy m d
  · rw [if_pos hc]
    unfold shouldCopy
    simp only [decide_eq_false_iff_not]
    omega
  · rw [if_neg hc]
    simpa using hc

/-! ## Claim C1 (corrected): clock advance during streaming -/

/-- Claim C1, counterexample: at a concrete streaming state with an empty
subscriber set, the tick does advance the simulation clock (by ceil(60/15)
ticks), contradicting the claim that the clock only advances while at least
one subscriber is attached. -/
theorem streamTick_advances_clock_with_no_subscribers :
    eS.streamActive = true ∧ eS.romLoaded = true ∧ eS.streamClients = [] ∧
    (streamTick stepW renderW 15 eS).1.ticks ≠ eS.ticks := by decide

/-- Claim C1, amended: every stream tick fired while the stream is active
and a ROM is loaded advances the simulation clock by ceil(60/fps) ticks,
whether or not subscribers are attached; an empty subscriber set only
suppresses the frame render and delivery. -/
theorem streamTick_clock_advances_regardless (step : σ → List Nat → σ)
    (render : σ → Frame) (fps : Nat) (s t : Emu σ)
    (hsa : s.streamActive = true) (hsl : s.romLoaded = true)
    (hta : t.streamActive = true) (htl : t.romLoaded = true)
    (htc : t.streamClients = []) :
    (streamTick step render fps s).1.ticks = s.ticks + (60 + fps - 1) / fps ∧
    (streamTick step render fps t).1.ticks = t.ticks + (60 + fps - 1) / fps ∧
    (streamTick step render fps t).2 = [] := by
  have hs := advanceN_fields step ((60 + fps - 1) / fps) s
  have ht := advanceN_fields step ((60 + fps - 1) / fps) t
  have htempty : (advanceN step ((60 + fps - 1) / fps) t).streamClients = [] := by
    rw [ht.2.1, htc]
  refine ⟨?_, ?_, ?_⟩
  · rw [streamTick_eq_of_active step render fps s hsa hsl]
    by_cases hn : 0 < (advanceN step ((60 + fps - 1) / fps) s).streamClients.length
    · rw [if_pos hn]; exact hs.1
    · rw [if_neg hn]; exact hs.1
  · rw [streamTick_eq_of_active step render fps t hta htl,
      if_neg (by rw [htempty]; exact Nat.lt_irrefl 0)]
    exact ht.1
  · rw [streamTick_eq_of_active step render fps t hta htl,
      if_neg (by rw [htempty]; exact Nat.lt_irrefl 0)]

/-- Claim C1, witness: the amended theorem applied to a streaming state with
subscribers and to one without. -/
theorem streamTick_clock_advances_witness :
    (streamTick stepW renderW 15 eS2).1.ticks = eS2.ticks + (60 + 15 - 1) / 15 ∧
    (streamTick stepW renderW 15 eS).1.ticks = eS.ticks + (60 + 15 - 1) / 15 ∧
    (streamTick stepW renderW 15 eS).2 = [] :=
  streamTick_clock_advances_regardless stepW renderW 15 eS2 eS rfl rfl rfl rfl rfl

/-! ## Claim C2 (corrected): get_screen is not a pure read -/

/-- Claim C2, counterexample: at a concrete loaded state with tick count 0,
the get_screen handler returns a state with tick count 1 — it advances the
simulation, so it is not a pure read. -/
theorem get_screen_not_pure_at_concrete_state :
    (getScreenHandler stepW renderW eL).toOption.map (fun p => p.1.ticks) =
      some (eL.ticks + 1) ∧
    ¬ (getScreenHandler stepW renderW eL).toOption.map (fun p => p.1.ticks) =
      some eL.ticks := by decide

/-- Claim C2, amended: in the Loaded state the underlying screen read
(getScreenAsBuffer) is pure — it returns the current frame and leaves the
state untouched — but the get_screen tool handler first advances the
simulation by exactly one tick and then returns the frame of the advanced
state. -/
theorem get_screen_advances_then_reads (step : σ → List Nat → σ)
    (render : σ → Frame) (s : Emu σ) (hl : s.romLoaded = true) :
    getScreenAsBuffer render s = .ok (s, render s.core) ∧
    getScreenHandler step render s =
      .ok (emuDoFrame step s, render (emuDoFrame step s).core) ∧
    (emuDoFrame step s).ticks = s.ticks + 1 := by
  refine ⟨?_, ?_, ?_⟩ <;> simp [getScreenAsBuffer, getScreenHandler, emuDoFrame, hl]

/-- Claim C2, witness: the amended theorem at a concrete loaded state. -/
theorem get_screen_advances_witness :
    getScreenAsBuffer renderW eL = .ok (eL, renderW eL.core) ∧
    getScreenHandler stepW renderW eL =
      .ok (emuDoFrame stepW eL, renderW (emuDoFrame stepW eL).core) ∧
    (emuDoFrame stepW eL).ticks = eL.ticks + 1 :=
  get_screen_advances_then_reads stepW renderW eL rfl

/-! ## Claim C3 (corrected): the installed id is sanitized only by default -/

/-- Claim C3, counterexample: installing with the custom name My_Game
stores that name verbatim as the id, and My_Game is not a sanitized name
(it has an underscore and upper-case letters). -/
theorem install_custom_name_unsanitized :
    installRom "/tmp/game.gb" (some "My_Game") 10 installFsW =
      .ok (⟨some 5, some 10, some ⟨"My_Game", "/tmp/game.gb", 10⟩⟩,
        "My_Game", true) ∧
    ¬ isSanitizedId "My_Game" :=
  ⟨by rfl, by decide⟩

/-- Claim C3, amended: only installs without a custom name derive the id by
sanitizing the source filename — extension stripped, every maximal run of
non-alphanumeric characters collapsed to a single dash (so alphanumeric
characters are preserved in order and no two dashes are adjacent),
lower-cased, one leading/trailing dash trimmed; a non-empty custom name is
used verbatim as the id, with no sanitization. -/
theorem installRom_id_characterization (src n : String) (l : List Char)
    (hn : n ≠ "") :
    installedName src none = sanitizeGameName src ∧
    installedName src (some n) = n ∧
    (dashRuns l).filter (fun c => c.isAlphanum) = l.filter (fun c => c.isAlphanum) ∧
    List.Chain' (fun a b => ¬(a = '-' ∧ b = '-')) (dashRuns l) :=
  ⟨rfl, by simp [installedName, hn], dashRuns_filter l, dashRuns_no_double_dash l⟩

/-- Claim C3, witness: the amended theorem at a concrete path, custom name
and character list. -/
theorem installRom_id_characterization_witness :
    installedName "/tmp/Pokemon Red.gb" none = sanitizeGameName "/tmp/Pokemon Red.gb" ∧
    installedName "/tmp/Pokemon Red.gb" (some "My_Game") = "My_Game" ∧
    (dashRuns "a!!b".toList).filter (fun c => c.isAlphanum) =
      "a!!b".toList.filter (fun c => c.isAlphanum) ∧
    List.Chain' (fun a b => ¬(a = '-' ∧ b = '-')) (dashRuns "a!!b".toList) :=
  installRom_id_characterization "/tmp/Pokemon Red.gb" "My_Game" "a!!b".toList
    (by decide)

/-! ## Claim C4 (confirmed): snapshot load needs both artifacts -/

/-- Claim C4: with a loaded session, loadState fails with a not-found error
when the state blob artifact is absent, fails with ENOENT when the metadata
artifact is absent or unreadable, and succeeds — restoring exactly the
stored blob — precisely when both artifacts are present. -/
theorem loadState_requires_both_artifacts (s : Emu σ) (files : SaveFiles σ)
    (sid g : String) (hl : s.romLoaded = true) (hg : s.gameName = some g)
    (hg2 : g ≠ "") :
    loadState sid s files =
      match files.state sid, files.meta sid with
      | none, _ => .error (.notFound ("Save state not found: " ++ sid))
      | some _, none => .error (.notFound ("ENOENT: " ++ sid ++ ".meta.json"))
      | some blob, some m => .ok ({ s with core := blob }, m) := by
  unfold loadState
  rw [hg]
  simp only [truthyName, if_neg hg2, hl]
  rcases files.state sid with _ | blob <;> rcases h : files.meta sid with _ | m <;> simp [h]

/-- Claim C4, witness: loadState applied to a concrete saves directory that
holds both artifacts of snapshot abc. -/
theorem loadState_requires_both_artifacts_witness :
    loadState "abc" eL filesW =
      match filesW.state "abc", filesW.meta "abc" with
      | none, _ => .error (.notFound ("Save state not found: " ++ "abc"))
      | some _, none => .error (.notFound ("ENOENT: " ++ "abc" ++ ".meta.json"))
      | some blob, some m => .ok ({ eL with core := blob }, m) :=
  loadState_requires_both_artifacts eL filesW "abc" "g" rfl rfl (by decide)

/-! ## Claim C5 (confirmed): save/restore round-trip -/

/-- Claim C5: on a loaded session, saveState leaves the session untouched
and records both artifacts; immediately restoring the saved blob (no
intervening ticks) yields a state whose rendered frame is byte-identical to
the screenshot captured at save time, at the same tick count. -/
theorem saveState_loadState_roundtrip (render : σ → Frame) (fid : String)
    (now : Nat) (nm : Option String) (s : Emu σ) (files : SaveFiles σ)
    (g : String) (hl : s.romLoaded = true) (hg : s.gameName = some g)
    (hg2 : g ≠ "") :
    ∃ (files2 : SaveFiles σ) (m : SaveStateMetadata σ) (s2 : Emu σ)
      (m2 : SaveStateMetadata σ),
      saveState render fid now nm s files = .ok (s, files2, m) ∧
      loadState fid s files2 = .ok (s2, m2) ∧
      m2 = m ∧
      render s2.core = m.screenshot ∧
      s2.ticks = s.ticks := by
  unfold saveState
  rw [hg]
  simp only [truthyName, if_neg hg2, hl]
  refine ⟨_, _, { s with core := s.core }, _, rfl, ?_, rfl, rfl, rfl⟩
  unfold loadState
  rw [hg]
  simp [truthyName, if_neg hg2, hl, SaveFiles.put]

/-- Claim C5, witness: the round-trip at a concrete loaded state and an
initially empty saves directory. -/
theorem saveState_loadState_roundtrip_witness :
    ∃ (files2 : SaveFiles Nat) (m : SaveStateMetadata Nat) (s2 : Emu Nat)
      (m2 : SaveStateMetadata Nat),
      saveState renderW "id1" 42 (some "checkpoint") eL emptyFilesW =
        .ok (eL, files2, m) ∧
      loadState "id1" eL files2 = .ok (s2, m2) ∧
      m2 = m ∧
      renderW s2.core = m.screenshot ∧
      s2.ticks = eL.ticks :=
  saveState_loadState_roundtrip renderW "id1" 42 (some "checkpoint") eL
    emptyFilesW "g" rfl rfl (by decide)

/-! ## Claim C6 (confirmed): pressInput semantics -/

/-- Claim C6: in the Unloaded state pressInput fails with the not-ready
error; in the Loaded state (with no stale queued keys) it advances the
simulation by exactly d + 1 ticks — d ticks under the key mask of the
button, then one tick with the mask cleared — and returns the frame of the
resulting state. -/
theorem pressInput_ticks_and_notReady (step : σ → List Nat → σ)
    (render : σ → Frame) (btn : GBButton) (d : Nat) (s u : Emu σ)
    (hl : s.romLoaded = true) (hp : s.pressed = [])
    (hu : u.romLoaded = false) :
    pressButtonHandler step render btn d u = .error .notReady ∧
    ∃ s1 : Emu σ,
      pressButtonHandler step render btn d s = .ok (s1, render s1.core) ∧
      s1.ticks = s.ticks + (d + 1) ∧
      s1.trace = s.trace ++ List.replicate d [keymap btn] ++ [[]] ∧
      s1.romLoaded = true := by
  constructor
  · simp [pressButtonHandler, pressButton, hu]
  · have h := pressLoop_fields step (keymap btn) d s hp
    refine ⟨emuDoFrame step (pressLoop step (keymap btn) d s), ?_, ?_, ?_, ?_⟩
    · simp [pressButtonHandler, pressButton, hl]
    · simp [emuDoFrame, h.2.1]; omega
    · simp [emuDoFrame, h.2.2.1, h.1]
    · simp [emuDoFrame, h.2.2.2, hl]

/-- Claim C6, witness: holding the A button for 2 frames at a concrete
loaded state, and pressing on a concrete unloaded state. -/
theorem pressInput_ticks_witness :
    pressButtonHandler stepW renderW GBButton.a 2 eU = .error .notReady ∧
    ∃ s1 : Emu Nat,
      pressButtonHandler stepW renderW GBButton.a 2 eL = .ok (s1, renderW s1.core) ∧
      s1.ticks = eL.ticks + (2 + 1) ∧
      s1.trace = eL.trace ++ List.replicate 2 [keymap GBButton.a] ++ [[]] ∧
      s1.romLoaded = true :=
  pressInput_ticks_and_notReady stepW renderW GBButton.a 2 eL eU rfl rfl rfl

/-! ## Claim C7 (confirmed): install is idempotent -/

/-- Claim C7: installing twice from the same unchanged source (clock at or
past the source mtime) performs the file copy at most once: the first call
copies exactly when no destination exists or the source is strictly newer,
the second call never copies, and after both calls there is one destination
file and one metadata record (rewritten in place with the same id). -/
theorem installRom_copy_once (sourcePath : String) (customName : Option String)
    (m now1 now2 : Nat) (fs : InstallFs)
    (hsrc : fs.srcMtime = some m) (hclock : m ≤ now1) :
    ∃ (fs1 : InstallFs) (nm1 : String) (c1 : Bool),
      installRom sourcePath customName now1 fs = .ok (fs1, nm1, c1) ∧
      (c1 = true ↔ fs.destRom = none ∨ ∃ t, fs.destRom = some t ∧ t < m) ∧
      installRom sourcePath customName now2 fs1 =
        .ok ({ fs1 with gameMeta := some ⟨nm1, sourcePath, now2⟩ }, nm1, false) ∧
      fs1.destRom.isSome = true ∧
      fs1.gameMeta = some ⟨nm1, sourcePath, now1⟩ := by
  refine ⟨_, _, _, installRom_eq sourcePath customName now1 fs m hsrc, ?_, ?_, ?_, rfl⟩
  · rcases hd : fs.destRom with _ | t <;> simp [shouldCopy, hd]
  · have h2 := installRom_eq sourcePath customName now2
      ⟨fs.srcMtime, if shouldCopy m fs.destRom then some now1 else fs.destRom,
        some ⟨installedName sourcePath customName, sourcePath, now1⟩⟩ m hsrc
    rw [h2, shouldCopy_after_install m now1 fs.destRom hclock]
    simp
  · by_cases hc : shouldCopy m fs.destRom
    · simp [hc]
    · rcases hd : fs.destRom with _ | t
      · rw [hd] at hc
        exact absurd rfl hc
      · simp only [hd]
        split <;> rfl

/-- Claim C7, witness: two installs of the same source (mtime 5) at clock
times 10 and 20 onto an initially empty install directory. -/
theorem installRom_copy_once_witness :
    ∃ (fs1 : InstallFs) (nm1 : String) (c1 : Bool),
      installRom "/tmp/game.gb" none 10 installFsW = .ok (fs1, nm1, c1) ∧
      (c1 = true ↔ installFsW.destRom = none ∨
        ∃ t, installFsW.destRom = some t ∧ t < 5) ∧
      installRom "/tmp/game.gb" none 20 fs1 =
        .ok ({ fs1 with gameMeta := some ⟨nm1, "/tmp/game.gb", 20⟩ }, nm1, false) ∧
      fs1.destRom.isSome = true ∧
      fs1.gameMeta = some ⟨nm1, "/tmp/game.gb", 10⟩ :=
  installRom_copy_once "/tmp/game.gb" none 5 10 20 installFsW rfl (by decide)

/-! ## Claim C8 (confirmed): deleteState removes both artifacts, idempotently -/

/-- Claim C8: with an explicit (non-empty) game name, deleteState returns
true exactly when at least one of the two artifacts existed, leaves both
artifacts absent, touches no other path, and never fails; a second call on
the resulting filesystem returns false. -/
theorem deleteState_removes_and_is_idempotent (cur : Option String)
    (g sid : String) (fs : Fs) (p : String) (hg : g ≠ "")
    (hp1 : p ≠ stateFilePath g sid) (hp2 : p ≠ metaFilePath g sid) :
    (deleteState cur sid (some g) fs).1 =
      ((fs (stateFilePath g sid)).isSome || (fs (metaFilePath g sid)).isSome) ∧
    (deleteState cur sid (some g) fs).2 (stateFilePath g sid) = none ∧
    (deleteState cur sid (some g) fs).2 (metaFilePath g sid) = none ∧
    (deleteState cur sid (some g) ((deleteState cur sid (some g) fs).2)).1 = false ∧
    (deleteState cur sid (some g) fs).2 p = fs p := by
  have hne := statePath_ne_metaPath g sid
  unfold deleteState
  simp only [jsOrName, if_neg hg]
  rcases h1 : fs (stateFilePath g sid) with _ | v1 <;>
    rcases h2 : fs (metaFilePath g sid) with _ | v2 <;>
      simp [h1, h2, Fs.remove, hne, Ne.symm hne, hp1, hp2, Ne.symm hp1, Ne.symm hp2]

/-- Claim C8, witness: deleting snapshot abc of game g from a filesystem
holding both artifacts, then deleting it again. -/
theorem deleteState_removes_witness :
    (deleteState none "abc" (some "g") fsW).1 =
      ((fsW (stateFilePath "g" "abc")).isSome ||
        (fsW (metaFilePath "g" "abc")).isSome) ∧
    (deleteState none "abc" (some "g") fsW).2 (stateFilePath "g" "abc") = none ∧
    (deleteState none "abc" (some "g") fsW).2 (metaFilePath "g" "abc") = none ∧
    (deleteState none "abc" (some "g")
      ((deleteState none "abc" (some "g") fsW).2)).1 = false ∧
    (deleteState none "abc" (some "g") fsW).2 "other" = fsW "other" :=
  deleteState_removes_and_is_idempotent none "g" "abc" fsW "other" (by decide)
    (by decide) (by decide)

/-! ## Claim C10 (confirmed): listStates on absent titles or directories -/

/-- Claim C10: listing save states with no loaded game and no explicit name
returns the empty list, and so does listing for a (non-empty) target game
whose saves directory does not exist — whether that game is given
explicitly or is the loaded one; no error is raised in either case. -/
theorem listStates_empty_on_absent (cur : Option String) (g : String)
    (fs fs2 : SavesFs) (hg : g ≠ "")
    (habs : fs2.dirEntries (savesDirPath g) = none) :
    listStates none none fs = [] ∧
    listStates cur (some g) fs2 = [] ∧
    listStates (some g) none fs2 = [] := by
  refine ⟨rfl, ?_, ?_⟩ <;> simp [listStates, jsOrName, hg, habs]

/-- Claim C10, witness: listing with nothing loaded, and listing game g on
a filesystem with no saves directories at all. -/
theorem listStates_empty_witness :
    listStates none none savesFsW = [] ∧
    listStates (some "cur") (some "g") savesFsW = [] ∧
    listStates (some "g") none savesFsW = [] :=
  listStates_empty_on_absent (some "cur") "g" savesFsW savesFsW (by decide) rfl

/-! ## Claim C9 (confirmed): fan-out with fault isolation -/

/-- Claim C9: during a streaming tick with a non-empty subscriber set, the
single rendered frame is delivered — identical bytes — to exactly the
subscribers whose callbacks do not raise; the raising subscribers are
removed from the subscriber set, and the tick still completes, advancing
the clock as usual. -/
theorem streamTick_fanout_isolates_failures (step : σ → List Nat → σ)
    (render : σ → Frame) (fps : Nat) (s : Emu σ)
    (ha : s.streamActive = true) (hl : s.romLoaded = true)
    (hne : s.streamClients ≠ []) :
    (streamTick step render fps s).2 =
      (s.streamClients.filter (fun c => !c.fails)).map
        (fun c => (c.sid, render (advanceN step ((60 + fps - 1) / fps) s).core)) ∧
    (streamTick step render fps s).1.streamClients =
      s.streamClients.filter (fun c => !c.fails) ∧
    (streamTick step render fps s).1.ticks = s.ticks + (60 + fps - 1) / fps := by
  have hs := advanceN_fields step ((60 + fps - 1) / fps) s
  have hn : 0 < (advanceN step ((60 + fps - 1) / fps) s).streamClients.length := by
    rw [hs.2.1]
    exact List.length_pos.mpr hne
  rw [streamTick_eq_of_active step render fps s ha hl, if_pos hn]
  rw [broadcast_spec]
  refine ⟨?_, ?_, hs.1⟩
  · rw [hs.2.1]
  · show (advanceN step ((60 + fps - 1) / fps) s).streamClients.filter
      (fun c => !c.fails) = _
    rw [hs.2.1]

/-- Claim C9, witness: a tick over three subscribers of which the middle
one raises — the other two receive the same frame and the raising one is
pruned. -/
theorem streamTick_fanout_witness :
    (streamTick stepW renderW 15 eS2).2 =
      (eS2.streamClients.filter (fun c => !c.fails)).map
        (fun c => (c.sid, renderW (advanceN stepW ((60 + 15 - 1) / 15) eS2).core)) ∧
    (streamTick stepW renderW 15 eS2).1.streamClients =
      eS2.streamClients.filter (fun c => !c.fails) ∧
    (streamTick stepW renderW 15 eS2).1.ticks = eS2.ticks + (60 + 15 - 1) / 15 :=
  streamTick_fanout_isolates_failures stepW renderW 15 eS2 rfl rfl (by decide)

end GameBoyMCP
